import Mathlib

/-!
Verification of the path-routing engine of the repository (the spec's
PathTree/RadixTree and Router components).

The routing implementation itself (module indexpy.routing) is not present
under src/ — only its test suite (src/tests/test_routing.py) is.  Following
the spec, every definition below whose doc comment starts with
"Modelled from the spec:" is a faithful shallow embedding of the missing
code, built from the natural-language description in spec.md (sections 3,
4.1, 4.2, 6, 7) and the calling conventions visible in the tests.

Strings are modelled as Lean Strings; the matching core works on the
underlying lists of characters.  All definitions are executable.
-/

set_option maxRecDepth 4096

/-- Modelled from the spec: converter type tags (spec §3 "Converter" — keyed
by type tag, at minimum the default string tag and an int tag; the code
carrying the registry is missing from src). -/
inductive ConvType : Type where
  | str
  | int
deriving DecidableEq, Repr, BEq

/-- Modelled from the spec: typed values produced by converters (spec §3:
default string-like converter, and an `int` converter as used by the
`{time:int}` template in the test corpus). -/
inductive Value : Type where
  | str (s : String)
  | int (n : Nat)
deriving DecidableEq, Repr

/-- Modelled from the spec: an endpooint is an opaque handle (spec §1, §3);
the only attribute the Router consults is the callable's name, used when a
registration omits an explicit route name (test fixture usage). -/
structure Endpoint : Type where
  name : String
deriving DecidableEq, Repr

/-- Modelled from the spec: the per-route registry of converters together
with the bound endpoint, stored at a terminal trie node (spec §4.1 search
step 5: "a mapping from parameter name to raw string value plus a per-route
registry of converters"; tests read it as node.param_convertors). -/
structure RouteInfo : Type where
  param_convertors : List (String × ConvType)
  endpoint : Endpoint
deriving DecidableEq, Repr

/-- Modelled from the spec: decimal digit run to its numeric value. -/
def digitsToNat (s : List Char) : Nat :=
  s.foldl (fun n c => 10 * n + (c.toNat - '0'.toNat)) 0

/-- Modelled from the spec: the `int` converter — accepts a non-empty run of
decimal digits, rejects anything else; "conversion failure means this branch
does not match" (spec §3 "Converter"). -/
def intConvert (s : List Char) : Option Nat :=
  if !s.isEmpty && s.all Char.isDigit then some (digitsToNat s) else none

/-- Modelled from the spec: the converter gate consulted during matching.
Only a declared non-default type is consulted (spec §4.1 step 5); the
default string converter never fails structurally-valid captures. -/
def convGate : ConvType → List Char → Bool
  | ConvType.str, _ => true
  | ConvType.int, s => (intConvert s).isSome

/-- Modelled from the spec: converting a raw captured string to a typed
value (spec §3 "Converter": default converter accepts any non-empty run
without a slash; `int` parses a digit run). -/
def convertValue : ConvType → String → Option Value
  | ConvType.str, s =>
      if !s.data.isEmpty && !s.data.contains '/' then some (Value.str s) else none
  | ConvType.int, s => (intConvert s.data).map (fun n => Value.int n)

/-- Association-list lookup by key (first hit wins). -/
def assocLookup {α : Type} : List (String × α) → String → Option α
  | [], _ => none
  | (k, x) :: rest, n => if k == n then some x else assocLookup rest n

/-- Modelled from the spec: the caller's explicit conversion step — convert
every raw captured parameter through the route's converter registry
(spec §4.1 step 5, and the dict comprehension in test_tree_success_search). -/
def convertAll (convs : List (String × ConvType)) :
    List (String × String) → Option (List (String × Value))
  | [] => some []
  | (n, v) :: rest =>
    match assocLookup convs n with
    | none => none
    | some c =>
      match convertValue c v with
      | none => none
      | some w => (convertAll convs rest).map (fun ps => (n, w) :: ps)

/-- Modelled from the spec: a parsed template token — a literal run of
characters, or a parameter placeholder carrying its name, converter tag and
the trailing literal that must immediately follow the captured value inside
the same segment (spec §3 "Segment", "TrieNode"). -/
inductive Token : Type where
  | lit (s : List Char)
  | param (name : String) (conv : ConvType) (suffix : List Char)
deriving DecidableEq, Repr

/-- Modelled from the spec: converter tag vocabulary in templates
(spec §6 grammar: at minimum the default string-like tag and `int`). -/
def convOfTag (cs : List Char) : Option ConvType :=
  if cs == "int".data then some ConvType.int else none

/-- Modelled from the spec: parsing a path template into tokens (spec §6
"Path template grammar": literal text and `\x7bname\x7d` / `\x7bname:type\x7d`
placeholders, each optionally fused with literal prefix/suffix text inside
one segment; at most one placeholder per segment).  Fuel-based recursion;
the wrapper supplies enough fuel for any input. -/
def parseTokensAux : Nat → List Char → Option (List Token)
  | 0, _ => none
  | _, [] => some []
  | fuel + 1, s =>
    let lead := s.takeWhile (fun c => c != '{')
    let rest := s.drop lead.length
    match rest with
    | [] => some [Token.lit lead]
    | _ :: rest2 =>
      let inner := rest2.takeWhile (fun c => c != '}')
      let rest3 := rest2.drop inner.length
      match rest3 with
      | [] => none
      | _ :: rest4 =>
        let suf := rest4.takeWhile (fun c => c != '/' && c != '{')
        let rest5 := rest4.drop suf.length
        if rest5.head? == some '{' then none
        else
          let pname := inner.takeWhile (fun c => c != ':')
          let tagPart := inner.drop pname.length
          let conv? : Option ConvType :=
            match tagPart with
            | [] => some ConvType.str
            | _ :: tag => convOfTag tag
          if pname.isEmpty || pname.contains '{' || pname.contains '/' then none
          else
            match conv? with
            | none => none
            | some cv =>
              (parseTokensAux fuel rest5).map (fun ts =>
                if lead.isEmpty then Token.param (String.mk pname) cv suf :: ts
                else Token.lit lead :: Token.param (String.mk pname) cv suf :: ts)

/-- Modelled from the spec: template parser entry point. -/
def parseTokens (s : String) : Option (List Token) :=
  parseTokensAux (s.length + 1) s.data

/-- Modelled from the spec: the compressed trie (spec §3 "TrieNode"): a set
of literal-keyed children (each child owns its radix-compressed literal
fragment), at most one parameter edge (name, converter tag, trailing
literal), and optional terminal route data. -/
inductive RadixTree : Type where
  | mk (children : List (List Char × RadixTree))
       (par : Option (String × ConvType × List Char × RadixTree))
       (info : Option RouteInfo)

namespace RadixTree

/-- The empty tree. -/
def empty : RadixTree := RadixTree.mk [] none none

end RadixTree

/-- Boolean prefix test on character lists. -/
def prefixOf : List Char → List Char → Bool
  | [], _ => true
  | _ :: _, [] => false
  | a :: as, b :: bs => a == b && prefixOf as bs

/-- Longest common literal run of two character lists. -/
def commonPfx : List Char → List Char → List Char
  | a :: as, b :: bs => if a == b then a :: commonPfx as bs else []
  | _, _ => []

/-- The maximal run of characters up to the next slash (spec §4.1 step 2:
"capture the maximal run of characters up to the next / or end of path"). -/
def takeSeg : List Char → List Char
  | [] => []
  | c :: cs => if c == '/' then [] else c :: takeSeg cs

/-- The remainder of the path from the next slash on. -/
def dropSeg : List Char → List Char
  | [] => []
  | c :: cs => if c == '/' then c :: cs else dropSeg cs

/-- Modelled from the spec: the capture extracted from one raw segment by a
parameter edge (spec §4.1 step 2): a pure parameter captures the whole
segment, which must be non-empty; a mixed parameter requires the segment to
end with the fixed trailing literal and captures the interior, which must be
non-empty. -/
def segCapture (seg psuf : List Char) : Option (List Char) :=
  if psuf.isEmpty then
    if seg.isEmpty then none else some seg
  else
    if psuf.length < seg.length && psuf.isSuffixOf seg then
      some (seg.take (seg.length - psuf.length))
    else none

mutual

/-- Modelled from the spec: the PathTree matching algorithm (spec §4.1
search, steps 1–6): depth-first and precedence-ordered — literal children
first, then the parameter edge; a failed branch backtracks to the next
lower-precedence branch; a declared non-default converter gates the
parameter edge; the path matches only if the final node after consuming all
characters is terminal.  Returns raw string captures plus the terminal
node's route data. -/
def searchNode : RadixTree → List Char → Option (List (String × List Char) × RouteInfo)
  | RadixTree.mk children par info, path =>
    if path.isEmpty then
      info.map (fun i => ([], i))
    else
      match searchKids children path with
      | some r => some r
      | none =>
        match par with
        | none => none
        | some (pname, conv, psuf, child) =>
          let seg := takeSeg path
          let rest := dropSeg path
          match segCapture seg psuf with
          | none => none
          | some cap =>
            if convGate conv cap then
              (searchNode child rest).map (fun r => ((pname, cap) :: r.1, r.2))
            else none

/-- Try the literal children in order; radix compression guarantees at most
one literal branch can match a given next character (spec §4.1 step 1), so
stored order is precedence order. -/
def searchKids : List (List Char × RadixTree) → List Char →
    Option (List (String × List Char) × RouteInfo)
  | [], _ => none
  | (frag, c) :: rest, path =>
    match (if prefixOf frag path then searchNode c (path.drop frag.length) else none) with
    | some r => some r
    | none => searchKids rest path

end

/-- Locate the child branch sharing a first character with the pending
literal, returning the children before it, the branch, and the children
after it. -/
def findBranch : List (List Char × RadixTree) → Char →
    Option (List (List Char × RadixTree) × List Char × RadixTree × List (List Char × RadixTree))
  | [], _ => none
  | (frag, c) :: rest, ch =>
    if frag.head? == some ch then some ([], frag, c, rest)
    else (findBranch rest ch).map (fun r => ((frag, c) :: r.1, r.2.1, r.2.2.1, r.2.2.2))

/-- Modelled from the spec: trie insertion (spec §4.1 append): walk existing
nodes consuming the longest common literal prefix, splitting a node where
the template diverges mid-literal; a parameter token creates or reuses the
node's single parameter edge, failing (none, the RouteConflict condition)
when a different parameter name, converter tag or trailing literal already
occupies it; the node reached after the last token is marked terminal with
the route's converter registry and endpoint, last write winning.  Fuel-based
recursion; the wrapper supplies enough fuel for any input. -/
def insertAux : Nat → RadixTree → List Token → List (String × ConvType) → Endpoint →
    Option RadixTree
  | 0, _, _, _, _ => none
  | fuel + 1, RadixTree.mk children par info, toks, acc, ep =>
    match toks with
    | [] => some (RadixTree.mk children par (some ⟨acc, ep⟩))
    | Token.lit s :: rest =>
      match s with
      | [] => insertAux fuel (RadixTree.mk children par info) rest acc ep
      | ch :: _ =>
        match findBranch children ch with
        | none =>
          (insertAux fuel RadixTree.empty rest acc ep).map
            (fun leaf => RadixTree.mk (children ++ [(s, leaf)]) par info)
        | some (pre, frag, child, post) =>
          let p := commonPfx s frag
          if p.length == frag.length then
            (insertAux fuel child (Token.lit (s.drop p.length) :: rest) acc ep).map
              (fun child2 => RadixTree.mk (pre ++ (frag, child2) :: post) par info)
          else
            (insertAux fuel (RadixTree.mk [(frag.drop p.length, child)] none none)
                (Token.lit (s.drop p.length) :: rest) acc ep).map
              (fun child2 => RadixTree.mk (pre ++ (p, child2) :: post) par info)
    | Token.param pname conv psuf :: rest =>
      match par with
      | none =>
        (insertAux fuel RadixTree.empty rest (acc ++ [(pname, conv)]) ep).map
          (fun child => RadixTree.mk children (some (pname, conv, psuf, child)) info)
      | some (pname2, conv2, psuf2, child) =>
        if pname == pname2 && conv == conv2 && psuf == psuf2 then
          (insertAux fuel child rest (acc ++ [(pname, conv)]) ep).map
            (fun child2 => RadixTree.mk children (some (pname2, conv2, psuf2, child2)) info)
        else none

/-- Modelled from the spec: PathTree.append(pathTemplate, endpoint)
(spec §4.1): parse the template and insert its token sequence; a none
result is the registration-failure (RouteConflict / malformed template)
condition. -/
def RadixTree.append (t : RadixTree) (template : String) (ep : Endpoint) : Option RadixTree :=
  (parseTokens template).bind (fun toks => insertAux (2 * template.length + 8) t toks [] ep)

/-- Modelled from the spec: PathTree.search over a path string (spec §4.1
search): returns the raw-string parameter mapping and the terminal node's
route data on a match, and the distinguished plain no-match result (none)
otherwise — never a raised failure (spec §4.1 step 6, §7). -/
def RadixTree.search (t : RadixTree) (path : String) :
    Option (List (String × String) × RouteInfo) :=
  (searchNode t path.data).map (fun r => (r.1.map (fun p => (p.1, String.mk p.2)), r.2))

/-- Register a list of templates in order, all bound to the same endpoint. -/
def appendAll (t : RadixTree) : List (String × Endpoint) → Option RadixTree
  | [] => some t
  | (s, ep) :: rest => (t.append s ep).bind (fun t2 => appendAll t2 rest)

/-- Modelled from the spec: the request-time failure taxonomy of the Router
layer (spec §7): NoMatchFound for search, NoRouteFound for reverse lookup,
and the NoRouteFound-adjacent ParameterMissing for a required placeholder
with no supplied value (spec §4.2). -/
inductive RoutingError : Type where
  | NoMatchFound
  | NoRouteFound
  | ParameterMissing
deriving DecidableEq, Repr

/-- Modelled from the spec: the Router — one PathTree per protocol
namespace and one name → (protocol, path template) index (spec §2, §3
"Router"). -/
structure Router : Type where
  trees : List (String × RadixTree)
  names : List (String × String × String)

/-- Look up the PathTree of a protocol namespace. -/
def lookupTree : List (String × RadixTree) → String → Option RadixTree
  | [], _ => none
  | (p, t) :: rest, proto => if p == proto then some t else lookupTree rest proto

/-- Replace a protocol's PathTree, creating the namespace if absent. -/
def updateTree : List (String × RadixTree) → String → RadixTree → List (String × RadixTree)
  | [], proto, t => [(proto, t)]
  | (p, t0) :: rest, proto, t =>
    if p == proto then (p, t) :: rest else (p, t0) :: updateTree rest proto t

/-- Whether a route name is already registered in a protocol namespace. -/
def nameTaken (names : List (String × String × String)) (proto nm : String) : Bool :=
  names.any (fun e => e.1 == proto && e.2.1 == nm)

/-- Modelled from the spec: Router.addRoute(protocol, pathTemplate,
endpoint, name?) (spec §4.2): insert into the protocol's PathTree and, when
a name is given, into that protocol's name index, failing (none, the
RouteConflict condition) when the name already exists for that protocol. -/
def Router.addRoute (r : Router) (protocol path : String) (ep : Endpoint)
    (nm : Option String) : Option Router :=
  let t0 := (lookupTree r.trees protocol).getD RadixTree.empty
  (t0.append path ep).bind (fun t1 =>
    match nm with
    | none => some ⟨updateTree r.trees protocol t1, r.names⟩
    | some n =>
      if nameTaken r.names protocol n then none
      else some ⟨updateTree r.trees protocol t1, r.names ++ [(protocol, n, path)]⟩)

/-- Modelled from the spec: builder-style construction from a route list
(spec §3 "Router" lifecycle: built once via sequential addRoute calls; the
tests construct Router from a list of (protocol, path, endpoint, name)). -/
def Router.ofList : List (String × String × Endpoint × Option String) → Option Router :=
  go ⟨[], []⟩
where
  go (r : Router) : List (String × String × Endpoint × Option String) → Option Router
    | [] => some r
    | (proto, path, ep, nm) :: rest => (r.addRoute proto path ep nm).bind (fun r2 => go r2 rest)

/-- Modelled from the spec and test fixture: how an explicit name argument
of a registration call is resolved — omitted: the route name defaults to
the endpoint callable's name; an explicit null: the route gets no name; an
explicit string: that string. -/
inductive NameArg : Type where
  | defaultName
  | noName
  | given (s : String)

/-- The route name resolved from a NameArg and the endpoint. -/
def effectiveName (ep : Endpoint) : NameArg → Option String
  | NameArg.defaultName => some ep.name
  | NameArg.noName => none
  | NameArg.given s => some s

/-- Modelled from the spec: Router.http registration (spec §4.2 direct-call
style, protocol fixed to "http"). -/
def Router.http (r : Router) (path : String) (ep : Endpoint) (na : NameArg) : Option Router :=
  r.addRoute "http" path ep (effectiveName ep na)

/-- Modelled from the spec: Router.websocket registration (protocol fixed
to "websocket"). -/
def Router.websocket (r : Router) (path : String) (ep : Endpoint) (na : NameArg) :
    Option Router :=
  r.addRoute "websocket" path ep (effectiveName ep na)

/-- Modelled from the spec: the decorator-like registration style
(spec §4.2): registers the endpoint and hands the endpoint itself back
unchanged, so it can be used or registered again. -/
def Router.httpDecorate (r : Router) (path : String) (na : NameArg) (ep : Endpoint) :
    Option Router × Endpoint :=
  (r.http path ep na, ep)

/-- Modelled from the spec: the decorator-like websocket registration. -/
def Router.websocketDecorate (r : Router) (path : String) (na : NameArg) (ep : Endpoint) :
    Option Router × Endpoint :=
  (r.websocket path ep na, ep)

/-- Modelled from the spec: Router.search(protocol, path) (spec §4.2):
look up the protocol's own PathTree — a hard partition, never a fallback —
and fail with NoMatchFound when the namespace is unknown or the path does
not match within it; on a match, convert the raw captures through the
route's converter registry and return them with the bound endpoint. -/
def Router.search (r : Router) (protocol path : String) :
    Except RoutingError (List (String × Value) × Endpoint) :=
  match lookupTree r.trees protocol with
  | none => Except.error RoutingError.NoMatchFound
  | some t =>
    match t.search path with
    | none => Except.error RoutingError.NoMatchFound
    | some (raw, info) =>
      match convertAll info.param_convertors raw with
      | none => Except.error RoutingError.NoMatchFound
      | some ps => Except.ok (ps, info.endpoint)

/-- The string form of a supplied parameter value (spec §4.2: values are
rendered back to strings when generating URLs). -/
def renderValue : Value → List Char
  | Value.str s => s.data
  | Value.int n => (toString n).data

/-- Modelled from the spec: re-rendering a stored path template by
substituting each placeholder with the string form of the supplied value in
template order, failing with ParameterMissing when a required placeholder
has no supplied value (spec §4.2 urlFor). -/
def renderTokens : List Token → List (String × Value) → Except RoutingError (List Char)
  | [], _ => Except.ok []
  | Token.lit s :: rest, ps => (renderTokens rest ps).map (fun r => s ++ r)
  | Token.param n _ suf :: rest, ps =>
    match assocLookup ps n with
    | none => Except.error RoutingError.ParameterMissing
    | some v => (renderTokens rest ps).map (fun r => renderValue v ++ suf ++ r)

/-- Whether a name-index entry (protocol, name, template) answers a lookup
for a route name, optionally scoped to a protocol (spec §4.2 urlFor). -/
def entryMatches (proto : Option String) (nm : String) (e : String × String × String) : Bool :=
  e.2.1 == nm && (match proto with | none => true | some p => e.1 == p)

/-- Modelled from the spec: Router.urlFor(name, params, protocol?)
(spec §4.2): look the name up in the index — scoped to the protocol when
given, else first match across namespaces — failing with NoRouteFound when
absent, then re-render the stored template. -/
def Router.url_for (r : Router) (nm : String) (params : List (String × Value))
    (proto : Option String) : Except RoutingError String :=
  match r.names.find? (fun e => entryMatches proto nm e) with
  | none => Except.error RoutingError.NoRouteFound
  | some e =>
    match parseTokens e.2.2 with
    | none => Except.error RoutingError.NoRouteFound
    | some toks => (renderTokens toks params).map String.mk

/-! Helper lemmas about segment splitting and prefix tests. -/

theorem takeSeg_of_no_slash (v : List Char) (h : '/' ∉ v) : takeSeg v = v := by
  induction v with
  | nil => simp [takeSeg]
  | cons c cs ih =>
    simp only [List.mem_cons, not_or] at h
    simp [takeSeg, ih h.2, beq_iff_eq, Ne.symm h.1]

theorem dropSeg_of_no_slash (v : List Char) (h : '/' ∉ v) : dropSeg v = [] := by
  induction v with
  | nil => simp [dropSeg]
  | cons c cs ih =>
    simp only [List.mem_cons, not_or] at h
    simp [dropSeg, ih h.2, beq_iff_eq, Ne.symm h.1]

theorem takeSeg_append_slash (v r : List Char) (h : '/' ∉ v) :
    takeSeg (v ++ '/' :: r) = v := by
  induction v with
  | nil => simp [takeSeg]
  | cons c cs ih =>
    simp only [List.mem_cons, not_or] at h
    simp [takeSeg, ih h.2, beq_iff_eq, Ne.symm h.1]

theorem dropSeg_append_slash (v r : List Char) (h : '/' ∉ v) :
    dropSeg (v ++ '/' :: r) = '/' :: r := by
  induction v with
  | nil => simp [dropSeg]
  | cons c cs ih =>
    simp only [List.mem_cons, not_or] at h
    simp [dropSeg, ih h.2, beq_iff_eq, Ne.symm h.1]

theorem prefixOf_iff (a : List Char) : ∀ b, prefixOf a b = true ↔ ∃ t, b = a ++ t := by
  induction a with
  | nil => intro b; simp [prefixOf]
  | cons c cs ih =>
    intro b
    cases b with
    | nil => simp [prefixOf]
    | cons d ds =>
      simp only [prefixOf, Bool.and_eq_true, beq_iff_eq, ih ds, List.cons_append,
        List.cons.injEq]
      constructor
      · rintro ⟨rfl, t, rfl⟩; exact ⟨t, rfl, rfl⟩
      · rintro ⟨t, rfl, rfl⟩; exact ⟨rfl, t, rfl⟩

/-! The PathTree fixture of src/tests/test_routing.py (the six templates of
the tree fixture, every endpoint being the Ellipsis placeholder). -/

/-- The Ellipsis object used as the bound endpoint in the tree fixture. -/
def ellipsisEndpoint : Endpoint := ⟨"Ellipsis"⟩

/-- The tree fixture of the tests: the six templates appended in order. -/
def treeOpt : Option RadixTree :=
  appendAll RadixTree.empty
    [("/hello", ellipsisEndpoint),
     ("/hello/{time:int}", ellipsisEndpoint),
     ("/hello/world", ellipsisEndpoint),
     ("/sayhi/{name}", ellipsisEndpoint),
     ("/sayhi/{name}/suffix", ellipsisEndpoint),
     ("/sayhi/{name}/avatar.{suffix}", ellipsisEndpoint)]

/-- The tree fixture, extracted. -/
def tree : RadixTree := treeOpt.getD RadixTree.empty

/-- All six registrations of the tree fixture succeed. -/
theorem treeOpt_isSome : treeOpt = some tree := rfl

/-! The literal form of the fixture tree, node by node, and the proof that
insertion produces exactly it. -/

/-- Terminal node of the literal route /hello/world. -/
def worldLeaf : RadixTree := .mk [] none (some ⟨[], ellipsisEndpoint⟩)

/-- Terminal node of /hello/\x7btime:int\x7d. -/
def timeLeaf : RadixTree := .mk [] none (some ⟨[("time", ConvType.int)], ellipsisEndpoint⟩)

/-- The node after consuming "/hello/": literal child "world", int-typed
parameter edge time. -/
def helloSlash : RadixTree :=
  .mk [("world".data, worldLeaf)] (some ("time", ConvType.int, [], timeLeaf)) none

/-- The node after consuming "/hello": terminal for /hello, child "/". -/
def helloNode : RadixTree := .mk [("/".data, helloSlash)] none (some ⟨[], ellipsisEndpoint⟩)

/-- Terminal node of /sayhi/\x7bname\x7d/suffix. -/
def suffixLeaf : RadixTree := .mk [] none (some ⟨[("name", ConvType.str)], ellipsisEndpoint⟩)

/-- Terminal node of /sayhi/\x7bname\x7d/avatar.\x7bsuffix\x7d. -/
def avLeaf : RadixTree :=
  .mk [] none (some ⟨[("name", ConvType.str), ("suffix", ConvType.str)], ellipsisEndpoint⟩)

/-- The node after consuming "avatar.": parameter edge suffix. -/
def avatarNode : RadixTree := .mk [] (some ("suffix", ConvType.str, [], avLeaf)) none

/-- The node after consuming "/" past the name capture: literal children
"suffix" and "avatar.". -/
def nameSlash : RadixTree :=
  .mk [("suffix".data, suffixLeaf), ("avatar.".data, avatarNode)] none none

/-- The node reached after capturing the name parameter: terminal for
/sayhi/\x7bname\x7d, child "/". -/
def nameNode : RadixTree :=
  .mk [("/".data, nameSlash)] none (some ⟨[("name", ConvType.str)], ellipsisEndpoint⟩)

/-- The node after consuming "/sayhi/": parameter edge name. -/
def sayhiNode : RadixTree := .mk [] (some ("name", ConvType.str, [], nameNode)) none

/-- The node after consuming the leading "/": literal children "hello" and
"sayhi/". -/
def treeTop : RadixTree := .mk [("hello".data, helloNode), ("sayhi/".data, sayhiNode)] none none

/-- The root of the fixture tree: single literal child "/". -/
def treeLit : RadixTree := .mk [("/".data, treeTop)] none none

/-- Inserting the six fixture templates yields exactly the literal tree. -/
theorem tree_eq : tree = treeLit := by rfl

/-! The Router fixture of src/tests/test_routing.py, reproducing the exact
sequence of registration calls of the router pytest fixture. -/

/-- The endpoint function hello_world of the router fixture. -/
def hello_world : Endpoint := ⟨"hello_world"⟩

/-- The endpoint function sayhi of the router fixture. -/
def sayhi : Endpoint := ⟨"sayhi"⟩

/-- The endpoint function about of the router fixture. -/
def about : Endpoint := ⟨"about"⟩

/-- The class-shaped endpoint HTTP of the router fixture. -/
def HTTP : Endpoint := ⟨"HTTP"⟩

/-- The class-shaped endpoint Socket of the router fixture. -/
def Socket : Endpoint := ⟨"Socket"⟩

/-- The router fixture: constructor list followed by the four further
registrations (decorator with explicit null name, direct call with default
name, decorator with default name, websocket decorator with explicit
name). -/
def routerOpt : Option Router :=
  (Router.ofList
    [("http", "/hello/world", hello_world, some "hello-world"),
     ("http", "/sayhi/{name}", sayhi, some "sayhi")]).bind (fun r =>
  ((r.httpDecorate "/about" NameArg.noName about).1).bind (fun r2 =>
  (r2.http "/about/{name}" about NameArg.defaultName).bind (fun r3 =>
  ((r3.httpDecorate "/http_view" NameArg.defaultName HTTP).1).bind (fun r4 =>
  (r4.websocketDecorate "/socket_view" (NameArg.given "socket") Socket).1))))

/-- The router fixture, extracted. -/
def router : Router := routerOpt.getD ⟨[], []⟩

/-- All registrations of the router fixture succeed. -/
theorem routerOpt_isSome : routerOpt = some router := rfl

/-! The literal form of the router's two PathTrees. -/

/-- Terminal node of http /hello/world. -/
def hwLeaf : RadixTree := .mk [] none (some ⟨[], hello_world⟩)

/-- Terminal node of http /http_view. -/
def hvLeaf : RadixTree := .mk [] none (some ⟨[], HTTP⟩)

/-- The node owning the common literal "h" of "hello/world" and
"http_view" (radix split). -/
def hNode : RadixTree := .mk [("ello/world".data, hwLeaf), ("ttp_view".data, hvLeaf)] none none

/-- Terminal node of http /sayhi/\x7bname\x7d. -/
def rNameLeaf : RadixTree := .mk [] none (some ⟨[("name", ConvType.str)], sayhi⟩)

/-- The node after consuming "sayhi/" in the http tree. -/
def rSayhiNode : RadixTree := .mk [] (some ("name", ConvType.str, [], rNameLeaf)) none

/-- Terminal node of http /about/\x7bname\x7d. -/
def aboutNameLeaf : RadixTree := .mk [] none (some ⟨[("name", ConvType.str)], about⟩)

/-- The node after consuming "/about/": parameter edge name. -/
def aboutSlash : RadixTree := .mk [] (some ("name", ConvType.str, [], aboutNameLeaf)) none

/-- The node after consuming "/about": terminal, child "/". -/
def aboutNode : RadixTree := .mk [("/".data, aboutSlash)] none (some ⟨[], about⟩)

/-- The node after the leading "/" of the http tree. -/
def httpTop : RadixTree :=
  .mk [("h".data, hNode), ("sayhi/".data, rSayhiNode), ("about".data, aboutNode)] none none

/-- The root of the http tree of the router fixture. -/
def httpRoot : RadixTree := .mk [("/".data, httpTop)] none none

/-- Terminal node of websocket /socket_view. -/
def svLeaf : RadixTree := .mk [] none (some ⟨[], Socket⟩)

/-- The root of the websocket tree of the router fixture. -/
def wsRoot : RadixTree := .mk [("/socket_view".data, svLeaf)] none none

/-- The name index the fixture registrations produce: explicit names as
given, the defaulted names taken from the endpoint callables ("about",
"HTTP"), and no entry at all for the name-null registration of /about. -/
def routerNames : List (String × String × String) :=
  [("http", "hello-world", "/hello/world"),
   ("http", "sayhi", "/sayhi/{name}"),
   ("http", "about", "/about/{name}"),
   ("http", "HTTP", "/http_view"),
   ("websocket", "socket", "/socket_view")]

/-- The fixture router in literal form: one tree per protocol namespace and
the name index above. -/
theorem router_eq : router = ⟨[("http", httpRoot), ("websocket", wsRoot)], routerNames⟩ := by
  rfl

/-- C1: with the six fixture templates registered in one PathTree, search
behaves per the reference corpus — /hello/123 matches with converted
parameter time = 123, /hello/world matches with an empty parameter map
(literal child tried before the parameter edge), /sayhi/aber/avatar.png
matches with name = aber and suffix = png, and /sayhi/aber and
/sayhi/aber/suffix match with name = aber. -/
theorem claim_C1 :
    (tree.search "/hello/123"
        = some ([("time", "123")], ⟨[("time", ConvType.int)], ellipsisEndpoint⟩)
      ∧ convertAll [("time", ConvType.int)] [("time", "123")] = some [("time", Value.int 123)])
    ∧ (tree.search "/hello/world" = some ([], ⟨[], ellipsisEndpoint⟩)
      ∧ convertAll [] [] = some [])
    ∧ (tree.search "/sayhi/aber/avatar.png"
        = some ([("name", "aber"), ("suffix", "png")],
            ⟨[("name", ConvType.str), ("suffix", ConvType.str)], ellipsisEndpoint⟩)
      ∧ convertAll [("name", ConvType.str), ("suffix", ConvType.str)]
          [("name", "aber"), ("suffix", "png")]
          = some [("name", Value.str "aber"), ("suffix", Value.str "png")])
    ∧ (tree.search "/sayhi/aber"
        = some ([("name", "aber")], ⟨[("name", ConvType.str)], ellipsisEndpoint⟩)
      ∧ convertAll [("name", ConvType.str)] [("name", "aber")]
          = some [("name", Value.str "aber")])
    ∧ (tree.search "/sayhi/aber/suffix"
        = some ([("name", "aber")], ⟨[("name", ConvType.str)], ellipsisEndpoint⟩)) := by
  refine ⟨⟨?_, ?_⟩, ⟨?_, ?_⟩, ⟨?_, ?_⟩, ⟨?_, ?_⟩, ?_⟩ <;> decide

/-- C8: PathTree search signals no-match as a plain distinguished result
(none), not an exception, for every corpus path matching no registered
template, while a successful search returns the raw-string parameter
mapping paired with the terminal node's converter registry — conversion
being the caller's subsequent step. -/
theorem claim_C8 :
    tree.search "" = none
    ∧ tree.search "/hello/" = none
    ∧ tree.search "/hello/world/" = none
    ∧ tree.search "/sayhi/aber/avatar" = none
    ∧ tree.search "/hello/123"
        = some ([("time", "123")], ⟨[("time", ConvType.int)], ellipsisEndpoint⟩)
    ∧ tree.search "/sayhi/aber/avatar.png"
        = some ([("name", "aber"), ("suffix", "png")],
            ⟨[("name", ConvType.str), ("suffix", ConvType.str)], ellipsisEndpoint⟩) := by
  refine ⟨?_, ?_, ?_, ?_, ?_, ?_⟩ <;> decide

/-! Character-list forms of the string literals used in the symbolic
claims, and a small digit lemma. -/

theorem data_mk (l : List Char) : (String.mk l).data = l := rfl

theorem sayhiData : "/sayhi/".data = ['/', 's', 'a', 'y', 'h', 'i', '/'] := rfl

theorem helloSlashData : "/hello/".data = ['/', 'h', 'e', 'l', 'l', 'o', '/'] := rfl

theorem worldData : "world".data = ['w', 'o', 'r', 'l', 'd'] := rfl

theorem avatarDotData : "/avatar.".data = ['/', 'a', 'v', 'a', 't', 'a', 'r', '.'] := rfl

theorem avatarData : "/avatar".data = ['/', 'a', 'v', 'a', 't', 'a', 'r'] := rfl

theorem suffixSlashData : "/suffix/".data = ['/', 's', 'u', 'f', 'f', 'i', 'x', '/'] := rfl

theorem aboutData : "/about/".data = ['/', 'a', 'b', 'o', 'u', 't', '/'] := rfl

theorem no_slash_of_digits (d : List Char) (h : d.all Char.isDigit = true) : '/' ∉ d := by
  intro hm
  have h2 := List.all_eq_true.mp h _ hm
  simp at h2

/-- C2: for every named route of the router fixture and every parameter
assignment whose rendered string form round-trips through the route's
converters, the URL produced by url_for fed back into search for the same
protocol matches that route and yields back the same parameter values —
universally over the captured value for the parameterised routes sayhi and
about, and concretely for the parameterless routes hello-world and
socket. -/
theorem claim_C2 :
    (∀ v : List Char,
      convertValue ConvType.str (String.mk v) = some (Value.str (String.mk v)) →
      (router.url_for "sayhi" [("name", Value.str (String.mk v))] (some "http")
          = Except.ok (String.mk ("/sayhi/".data ++ v))
        ∧ router.search "http" (String.mk ("/sayhi/".data ++ v))
          = Except.ok ([("name", Value.str (String.mk v))], sayhi))
      ∧ (router.url_for "about" [("name", Value.str (String.mk v))] (some "http")
          = Except.ok (String.mk ("/about/".data ++ v))
        ∧ router.search "http" (String.mk ("/about/".data ++ v))
          = Except.ok ([("name", Value.str (String.mk v))], about)))
    ∧ (router.url_for "hello-world" [] (some "http") = Except.ok "/hello/world"
      ∧ router.search "http" "/hello/world" = Except.ok ([], hello_world))
    ∧ (router.url_for "socket" [] (some "websocket") = Except.ok "/socket_view"
      ∧ router.search "websocket" "/socket_view" = Except.ok ([], Socket)) := by
  refine ⟨?_, ⟨by rfl, by rfl⟩, ⟨by rfl, by rfl⟩⟩
  intro v h
  by_cases hcond : (!v.isEmpty && !v.contains '/') = true
  case neg =>
    simp [convertValue, data_mk] at h
    exact absurd (by simp [h.1, h.2]) hcond
  have hvs : v ≠ [] ∧ '/' ∉ v := by simpa using hcond
  obtain ⟨c, cs, rfl⟩ : ∃ c cs, v = c :: cs := by
    cases v with
    | nil => exact absurd rfl hvs.1
    | cons c cs => exact ⟨c, cs, rfl⟩
  have hns := hvs.2
  simp only [List.mem_cons, not_or] at hns
  refine ⟨⟨?_, ?_⟩, ?_, ?_⟩
  · have hparse : parseTokens "/sayhi/{name}"
        = some [Token.lit "/sayhi/".data, Token.param "name" ConvType.str []] := by decide
    rw [router_eq]
    simp [Router.url_for, routerNames, List.find?, entryMatches, hparse,
      renderTokens, assocLookup, renderValue, data_mk, Except.map, sayhiData]
  · rw [router_eq]
    simp [Router.search, lookupTree, RadixTree.search, data_mk,
      httpRoot, httpTop, hNode, rSayhiNode, rNameLeaf, aboutNode,
      searchNode, searchKids, prefixOf, sayhiData, takeSeg, dropSeg, Ne.symm hns.1,
      takeSeg_of_no_slash cs hns.2, dropSeg_of_no_slash cs hns.2, segCapture, convGate,
      convertAll, assocLookup, h, Except.map]
  · have hparse : parseTokens "/about/{name}"
        = some [Token.lit "/about/".data, Token.param "name" ConvType.str []] := by decide
    rw [router_eq]
    simp [Router.url_for, routerNames, List.find?, entryMatches, hparse,
      renderTokens, assocLookup, renderValue, data_mk, Except.map, aboutData]
  · rw [router_eq]
    simp [Router.search, lookupTree, RadixTree.search, data_mk,
      httpRoot, httpTop, hNode, rSayhiNode, rNameLeaf, aboutNode, aboutSlash, aboutNameLeaf,
      searchNode, searchKids, prefixOf, aboutData, takeSeg, dropSeg, Ne.symm hns.1,
      takeSeg_of_no_slash cs hns.2, dropSeg_of_no_slash cs hns.2, segCapture, convGate,
      convertAll, assocLookup, h, Except.map]

/-- Witness for C2 at the concrete value "aber": the hypothesis (the string
converter round-trips "aber") holds, and the round-trip law follows for the
sayhi route. -/
theorem claim_C2_witness :
    convertValue ConvType.str "aber" = some (Value.str "aber")
    ∧ router.url_for "sayhi" [("name", Value.str "aber")] (some "http")
        = Except.ok "/sayhi/aber"
    ∧ router.search "http" "/sayhi/aber" = Except.ok ([("name", Value.str "aber")], sayhi) :=
  ⟨by decide, (claim_C2.1 "aber".data (by decide)).1.1, (claim_C2.1 "aber".data (by decide)).1.2⟩

/-- C3: search on a path whose candidate segment fails the declared int
converter of /hello/\x7btime:int\x7d returns no-match, even when the
structural shape matches; a segment that instead matches the literal
sibling still succeeds, the conversion failure having been treated as a
plain non-match at the parameter edge (backtracking, not an error). -/
theorem claim_C3 :
    (∀ s : List Char, '/' ∉ s → intConvert s = none → s ≠ "world".data →
      tree.search (String.mk ("/hello/".data ++ s)) = none)
    ∧ tree.search "/hello/world" = some ([], ⟨[], ellipsisEndpoint⟩) := by
  refine ⟨?_, by decide⟩
  intro s hns hint hw
  by_cases hp : prefixOf "world".data s = true
  · obtain ⟨t, rfl⟩ := (prefixOf_iff _ _).mp hp
    have ht : t ≠ [] := by rintro rfl; simp at hw
    obtain ⟨d, ds, rfl⟩ : ∃ d ds, t = d :: ds := by
      cases t with
      | nil => exact absurd rfl ht
      | cons d ds => exact ⟨d, ds, rfl⟩
    simp [RadixTree.search, tree_eq, treeLit, treeTop, helloNode, helloSlash, worldLeaf,
      timeLeaf, sayhiNode, searchNode, searchKids, prefixOf, helloSlashData, worldData,
      segCapture, convGate, hint, takeSeg_of_no_slash _ hns, dropSeg_of_no_slash _ hns]
  · rcases eq_or_ne s [] with rfl | hs
    · simp [RadixTree.search, tree_eq, treeLit, treeTop, helloNode, helloSlash, worldLeaf,
        timeLeaf, sayhiNode, searchNode, searchKids, prefixOf, helloSlashData, worldData,
        segCapture, convGate]
    · simp [RadixTree.search, tree_eq, treeLit, treeTop, helloNode, helloSlash, worldLeaf,
        timeLeaf, sayhiNode, searchNode, searchKids, prefixOf, helloSlashData, worldData,
        segCapture, convGate, hint, hp, hs,
        takeSeg_of_no_slash _ hns, dropSeg_of_no_slash _ hns]

/-- Witness for C3 at the concrete segment "abc": the hypotheses hold and
search on /hello/abc is a no-match. -/
theorem claim_C3_witness :
    ('/' ∉ "abc".data) ∧ intConvert "abc".data = none ∧ "abc".data ≠ "world".data
    ∧ tree.search "/hello/abc" = none :=
  ⟨by decide, by decide, by decide,
    claim_C3.1 "abc".data (by decide) (by decide) (by decide)⟩

/-- C4: no trailing-slash variant of any registered fixture path matches —
concretely for the literal routes and universally over the captured values
for the parameterised ones — and the empty path does not match either: a
path matches only when the final node after consuming every segment is
terminal, with no implicit normalization. -/
theorem claim_C4 :
    tree.search "" = none
    ∧ tree.search "/hello/" = none
    ∧ tree.search "/hello/world/" = none
    ∧ (∀ d : List Char, (intConvert d).isSome = true →
        tree.search (String.mk ("/hello/".data ++ d ++ ['/'])) = none)
    ∧ (∀ v : List Char, v ≠ [] → '/' ∉ v →
        tree.search (String.mk ("/sayhi/".data ++ v ++ ['/'])) = none
        ∧ tree.search (String.mk ("/sayhi/".data ++ v ++ "/suffix/".data)) = none)
    ∧ (∀ v w : List Char, v ≠ [] → '/' ∉ v → w ≠ [] → '/' ∉ w →
        tree.search (String.mk ("/sayhi/".data ++ v ++ "/avatar.".data ++ w ++ ['/']))
          = none) := by
  refine ⟨by decide, by decide, by decide, ?_, ?_, ?_⟩
  · intro d hd
    by_cases hcond : (!d.isEmpty && d.all Char.isDigit) = true
    case neg => simp [intConvert, hcond] at hd
    have hdig : d.all Char.isDigit = true := by
      rcases Bool.and_eq_true_iff.mp hcond with ⟨_, h2⟩; exact h2
    have hns : '/' ∉ d := no_slash_of_digits d hdig
    obtain ⟨c, cs, rfl⟩ : ∃ c cs, d = c :: cs := by
      cases d with
      | nil => simp at hcond
      | cons c cs => exact ⟨c, cs, rfl⟩
    have hcw : ('w' == c) = false := by
      have hc : c.isDigit = true := by
        have h3 := List.all_eq_true.mp hdig c (by simp)
        simpa using h3
      rcases eq_or_ne c 'w' with rfl | hne
      · simp at hc
      · exact beq_eq_false_iff_ne.mpr (Ne.symm hne)
    simp only [List.mem_cons, not_or] at hns
    simp [RadixTree.search, tree_eq, treeLit, treeTop, helloNode, helloSlash, worldLeaf,
      timeLeaf, sayhiNode, searchNode, searchKids, prefixOf, helloSlashData, worldData,
      segCapture, convGate, hcw, data_mk, takeSeg, dropSeg, Ne.symm hns.1,
      takeSeg_append_slash cs _ hns.2, dropSeg_append_slash cs _ hns.2,
      intConvert, hcond]
  · intro v hne hns
    obtain ⟨c, cs, rfl⟩ : ∃ c cs, v = c :: cs := by
      cases v with
      | nil => exact absurd rfl hne
      | cons c cs => exact ⟨c, cs, rfl⟩
    simp only [List.mem_cons, not_or] at hns
    constructor
    · simp [RadixTree.search, tree_eq, treeLit, treeTop, helloNode, sayhiNode, nameNode,
        nameSlash, suffixLeaf, avatarNode, searchNode, searchKids, prefixOf, sayhiData,
        takeSeg, dropSeg, Ne.symm hns.1, data_mk,
        takeSeg_append_slash cs _ hns.2, dropSeg_append_slash cs _ hns.2, segCapture,
        convGate]
    · simp [RadixTree.search, tree_eq, treeLit, treeTop, helloNode, sayhiNode, nameNode,
        nameSlash, suffixLeaf, avatarNode, avLeaf, searchNode, searchKids, prefixOf,
        sayhiData, suffixSlashData, takeSeg, dropSeg, Ne.symm hns.1, data_mk,
        takeSeg_append_slash cs _ hns.2, dropSeg_append_slash cs _ hns.2, segCapture,
        convGate]
  · intro v w hne hns wne wns
    obtain ⟨c, cs, rfl⟩ : ∃ c cs, v = c :: cs := by
      cases v with
      | nil => exact absurd rfl hne
      | cons c cs => exact ⟨c, cs, rfl⟩
    obtain ⟨e, es, rfl⟩ : ∃ e es, w = e :: es := by
      cases w with
      | nil => exact absurd rfl wne
      | cons e es => exact ⟨e, es, rfl⟩
    simp only [List.mem_cons, not_or] at hns wns
    simp [RadixTree.search, tree_eq, treeLit, treeTop, helloNode, sayhiNode, nameNode,
      nameSlash, suffixLeaf, avatarNode, avLeaf, searchNode, searchKids, prefixOf,
      sayhiData, avatarDotData, takeSeg, dropSeg, Ne.symm hns.1, Ne.symm wns.1, data_mk,
      takeSeg_append_slash cs _ hns.2, dropSeg_append_slash cs _ hns.2,
      takeSeg_append_slash es _ wns.2, dropSeg_append_slash es _ wns.2, segCapture,
      convGate]

/-- Witness for C4 at the concrete captures "123", "aber" and "png": the
hypotheses hold and every trailing-slash variant is a no-match. -/
theorem claim_C4_witness :
    (intConvert "123".data).isSome = true
    ∧ tree.search "/hello/123/" = none
    ∧ tree.search "/sayhi/aber/" = none
    ∧ tree.search "/sayhi/aber/suffix/" = none
    ∧ tree.search "/sayhi/aber/avatar.png/" = none :=
  ⟨by decide,
    claim_C4.2.2.2.1 "123".data (by decide),
    (claim_C4.2.2.2.2.1 "aber".data (by decide) (by decide)).1,
    (claim_C4.2.2.2.2.1 "aber".data (by decide) (by decide)).2,
    claim_C4.2.2.2.2.2 "aber".data "png".data (by decide) (by decide) (by decide) (by decide)⟩

/-- C5: protocol is a hard partition — Router.search consults only the
searched protocol's own PathTree (any two routers agreeing on that tree
search identically), and concretely in the fixture a path registered only
under http never matches a websocket search and vice versa. -/
theorem claim_C5 :
    (∀ (r1 r2 : Router) (proto path : String),
        lookupTree r1.trees proto = lookupTree r2.trees proto →
        r1.search proto path = r2.search proto path)
    ∧ router.search "websocket" "/hello/world" = Except.error RoutingError.NoMatchFound
    ∧ router.search "websocket" "/sayhi/aber" = Except.error RoutingError.NoMatchFound
    ∧ router.search "http" "/socket_view" = Except.error RoutingError.NoMatchFound
    ∧ router.search "http" "/hello/world" = Except.ok ([], hello_world)
    ∧ router.search "websocket" "/socket_view" = Except.ok ([], Socket) := by
  refine ⟨?_, by rfl, by rfl, by rfl, by rfl, by rfl⟩
  intro r1 r2 proto path h
  simp only [Router.search, h]

/-- Witness for C5: the fixture router and a router holding only the http
tree agree on every http search, here at /sayhi/aber. -/
theorem claim_C5_witness :
    router.search "http" "/sayhi/aber"
      = Router.search ⟨[("http", httpRoot)], []⟩ "http" "/sayhi/aber" :=
  claim_C5.1 router ⟨[("http", httpRoot)], []⟩ "http" "/sayhi/aber" (by rfl)

/-- C6: url_for on a name registered in no consulted namespace fails with
NoRouteFound, and search on an unknown protocol or on a path no registered
template of that protocol matches fails with NoMatchFound — generally for
any router and concretely for the fixture. -/
theorem claim_C6 :
    (∀ (r : Router) (nm : String) (params : List (String × Value)) (proto : Option String),
        (∀ e ∈ r.names, entryMatches proto nm e = false) →
        r.url_for nm params proto = Except.error RoutingError.NoRouteFound)
    ∧ (∀ (r : Router) (proto path : String),
        lookupTree r.trees proto = none →
        r.search proto path = Except.error RoutingError.NoMatchFound)
    ∧ (∀ (r : Router) (proto path : String) (t : RadixTree),
        lookupTree r.trees proto = some t → t.search path = none →
        r.search proto path = Except.error RoutingError.NoMatchFound)
    ∧ router.url_for "longlongname" [] none = Except.error RoutingError.NoRouteFound
    ∧ router.search "ftp" "/hello/world" = Except.error RoutingError.NoMatchFound
    ∧ router.search "http" "/hello" = Except.error RoutingError.NoMatchFound := by
  refine ⟨?_, ?_, ?_, by rfl, by rfl, by rfl⟩
  · intro r nm params proto h
    have hf : r.names.find? (fun e => entryMatches proto nm e) = none := by
      rw [List.find?_eq_none]
      intro e he
      simp [h e he]
    simp only [Router.url_for, hf]
  · intro r proto path h
    simp only [Router.search, h]
  · intro r proto path t h1 h2
    simp only [Router.search, h1, h2]

/-- Witness for C6: no fixture name-index entry answers a lookup for
"longlongname", so url_for fails with NoRouteFound. -/
theorem claim_C6_witness :
    (∀ e ∈ router.names, entryMatches none "longlongname" e = false)
    ∧ router.url_for "longlongname" [] none = Except.error RoutingError.NoRouteFound :=
  ⟨by decide, claim_C6.1 router "longlongname" [] none (by decide)⟩

/-- C7: the mixed segment avatar.\x7bsuffix\x7d requires a non-empty
interior capture — a final segment equal to the fixed literal part alone
never matches, for every captured name value, while any non-empty suffix
capture does match. -/
theorem claim_C7 :
    (∀ v : List Char, v ≠ [] → '/' ∉ v →
      tree.search (String.mk ("/sayhi/".data ++ v ++ "/avatar".data)) = none)
    ∧ (∀ v w : List Char, v ≠ [] → '/' ∉ v → w ≠ [] → '/' ∉ w →
      tree.search (String.mk ("/sayhi/".data ++ v ++ "/avatar.".data ++ w))
        = some ([("name", String.mk v), ("suffix", String.mk w)],
            ⟨[("name", ConvType.str), ("suffix", ConvType.str)], ellipsisEndpoint⟩)) := by
  constructor
  · intro v hne hns
    obtain ⟨c, cs, rfl⟩ : ∃ c cs, v = c :: cs := by
      cases v with
      | nil => exact absurd rfl hne
      | cons c cs => exact ⟨c, cs, rfl⟩
    simp only [List.mem_cons, not_or] at hns
    simp [RadixTree.search, tree_eq, treeLit, treeTop, helloNode, sayhiNode, nameNode,
      nameSlash, suffixLeaf, avatarNode, avLeaf, searchNode, searchKids, prefixOf,
      sayhiData, avatarData, takeSeg, dropSeg, Ne.symm hns.1,
      takeSeg_append_slash cs _ hns.2, dropSeg_append_slash cs _ hns.2, segCapture,
      convGate]
  · intro v w hne hns wne wns
    obtain ⟨c, cs, rfl⟩ : ∃ c cs, v = c :: cs := by
      cases v with
      | nil => exact absurd rfl hne
      | cons c cs => exact ⟨c, cs, rfl⟩
    simp only [List.mem_cons, not_or] at hns
    simp [RadixTree.search, tree_eq, treeLit, treeTop, helloNode, sayhiNode, nameNode,
      nameSlash, suffixLeaf, avatarNode, avLeaf, searchNode, searchKids, prefixOf,
      sayhiData, avatarDotData, takeSeg, dropSeg, Ne.symm hns.1,
      takeSeg_append_slash cs _ hns.2, dropSeg_append_slash cs _ hns.2,
      takeSeg_of_no_slash w wns, dropSeg_of_no_slash w wns, segCapture, convGate, wne]

/-- Witness for C7 at the concrete captures "aber" and "png":
/sayhi/aber/avatar is a no-match and /sayhi/aber/avatar.png matches. -/
theorem claim_C7_witness :
    tree.search "/sayhi/aber/avatar" = none
    ∧ tree.search "/sayhi/aber/avatar.png"
        = some ([("name", "aber"), ("suffix", "png")],
            ⟨[("name", ConvType.str), ("suffix", ConvType.str)], ellipsisEndpoint⟩) :=
  ⟨claim_C7.1 "aber".data (by decide) (by decide),
    claim_C7.2 "aber".data "png".data (by decide) (by decide) (by decide) (by decide)⟩

/-- C9: url_for on a stored template containing a required parameter
placeholder with no supplied value fails with ParameterMissing rather than
returning a partially substituted URL — generally for any token list and
concretely for the fixture routes. -/
theorem claim_C9 :
    (∀ (toks : List Token) (params : List (String × Value)) (n : String) (cv : ConvType)
        (suf : List Char),
        Token.param n cv suf ∈ toks → assocLookup params n = none →
        renderTokens toks params = Except.error RoutingError.ParameterMissing)
    ∧ router.url_for "sayhi" [] (some "http") = Except.error RoutingError.ParameterMissing
    ∧ router.url_for "about" [("wrong", Value.str "x")] (some "http")
        = Except.error RoutingError.ParameterMissing := by
  refine ⟨?_, by rfl, by rfl⟩
  intro toks params
  induction toks with
  | nil => intro n cv suf h _; simp at h
  | cons t ts ih =>
    intro n cv suf hmem hlook
    rcases List.mem_cons.mp hmem with rfl | hmem2
    · simp [renderTokens, hlook]
    · cases t with
      | lit s => simp [renderTokens, ih n cv suf hmem2 hlook, Except.map]
      | param n2 cv2 suf2 =>
        cases hl : assocLookup params n2 with
        | none => simp [renderTokens, hl]
        | some v => simp [renderTokens, hl, ih n cv suf hmem2 hlook, Except.map]

/-- Witness for C9 at the parsed sayhi template and an empty parameter
assignment: the placeholder is present, the lookup is empty, and rendering
fails with ParameterMissing. -/
theorem claim_C9_witness :
    Token.param "name" ConvType.str []
        ∈ [Token.lit "/sayhi/".data, Token.param "name" ConvType.str []]
    ∧ renderTokens [Token.lit "/sayhi/".data, Token.param "name" ConvType.str []] []
        = Except.error RoutingError.ParameterMissing :=
  ⟨by decide,
    claim_C9.1 [Token.lit "/sayhi/".data, Token.param "name" ConvType.str []] []
      "name" ConvType.str [] (by decide) rfl⟩

/-- C10: a route registered through Router.http without an explicit name
argument gets the endpoint callable's name (so url_for "about" renders
/about/aber), an explicit null name registers the route with no name — the
fixture's name index contains exactly the five expected entries — and the
decorator form hands the endpoint back unchanged. -/
theorem claim_C10 :
    router.names = routerNames
    ∧ router.url_for "about" [("name", Value.str "aber")] (some "http")
        = Except.ok "/about/aber"
    ∧ (∀ (r : Router) (path : String) (na : NameArg) (ep : Endpoint),
        (r.httpDecorate path na ep).2 = ep)
    ∧ (∀ (r : Router) (path : String) (ep : Endpoint),
        r.http path ep NameArg.defaultName = r.addRoute "http" path ep (some ep.name))
    ∧ (∀ (r : Router) (path : String) (ep : Endpoint),
        r.http path ep NameArg.noName = r.addRoute "http" path ep none) :=
  ⟨by decide, by rfl, fun _ _ _ _ => rfl, fun _ _ _ => rfl, fun _ _ _ => rfl⟩
